import Mathlib

/-! Shallow embedding of the gesture-driven scene-state controller and
particle animation engine found in `src/index.tsx`.  JavaScript numbers are
modelled as real numbers.  Every call to `Math.random()` is modelled by an
explicit stream `g : ℕ → ℝ` of draws together with a cursor `k : ℕ` that is
advanced by one for each draw, in the exact order the source performs them.
Object references (the `targetPhoto` field and the `this === STATE.targetPhoto`
identity test) are modelled by indices into the append-only particle list. -/

noncomputable section

open Classical

/-- A 3-component vector, mirroring `THREE.Vector3` (and `THREE.Euler`
when used for rotation angles, always in the default XYZ order). -/
structure Vec3 where
  x : ℝ
  y : ℝ
  z : ℝ

/-- `THREE.Vector3.lerp(v, alpha)`: each component moves by `alpha` times the
remaining difference (`this.x += ( v.x - this.x ) * alpha`). -/
def Vec3.lerp (a b : Vec3) (t : ℝ) : Vec3 :=
  ⟨a.x + (b.x - a.x) * t, a.y + (b.y - a.y) * t, a.z + (b.z - a.z) * t⟩

/-- `THREE.Vector3.multiplyScalar(s)`. -/
def Vec3.smul (a : Vec3) (s : ℝ) : Vec3 :=
  ⟨a.x * s, a.y * s, a.z * s⟩

/-- Euclidean length of a vector (`THREE.Vector3.length`). -/
def Vec3.norm (a : Vec3) : ℝ :=
  Real.sqrt (a.x ^ 2 + a.y ^ 2 + a.z ^ 2)

/-- Euclidean distance between two points (`THREE.Vector3.distanceTo`). -/
def Vec3.dist (a b : Vec3) : ℝ :=
  Real.sqrt ((a.x - b.x) ^ 2 + (a.y - b.y) ^ 2 + (a.z - b.z) ^ 2)

/-- A quaternion with the field layout of `THREE.Quaternion`. -/
structure Quat where
  x : ℝ
  y : ℝ
  z : ℝ
  w : ℝ

/-- Length of a quaternion (`THREE.Quaternion.length`). -/
def Quat.length (q : Quat) : ℝ :=
  Real.sqrt (q.x ^ 2 + q.y ^ 2 + q.z ^ 2 + q.w ^ 2)

/-- `THREE.Quaternion.normalize`: divides by the length, or resets to the
identity quaternion when the length is zero. -/
def Quat.normalize (q : Quat) : Quat :=
  let l := q.length
  if l = 0 then ⟨0, 0, 0, 1⟩ else ⟨q.x / l, q.y / l, q.z / l, q.w / l⟩

/-- `THREE.Quaternion.setFromEuler` for the default XYZ rotation order. -/
def Quat.setFromEuler (e : Vec3) : Quat :=
  let c1 := Real.cos (e.x / 2)
  let c2 := Real.cos (e.y / 2)
  let c3 := Real.cos (e.z / 2)
  let s1 := Real.sin (e.x / 2)
  let s2 := Real.sin (e.y / 2)
  let s3 := Real.sin (e.z / 2)
  ⟨s1 * c2 * c3 + c1 * s2 * s3,
   c1 * s2 * c3 - s1 * c2 * s3,
   c1 * c2 * s3 + s1 * s2 * c3,
   c1 * c2 * c3 - s1 * s2 * s3⟩

/-- `THREE.Quaternion.slerp(qb, t)`.  The `Number.EPSILON` degeneracy guard of
the library is modelled as an exact comparison with zero, and the library's
`atan2(√(1−c²), c)` is written as `arccos c`, which coincides with it on the
values reached here. -/
def Quat.slerp (qa qb : Quat) (t : ℝ) : Quat :=
  if t = 0 then qa
  else if t = 1 then qb
  else
    let cos0 := qa.w * qb.w + qa.x * qb.x + qa.y * qb.y + qa.z * qb.z
    let qt : Quat := if cos0 < 0 then ⟨-qb.x, -qb.y, -qb.z, -qb.w⟩ else qb
    let cosHalfTheta := if cos0 < 0 then -cos0 else cos0
    if 1 ≤ cosHalfTheta then qa
    else
      let sqrSinHalfTheta := 1 - cosHalfTheta ^ 2
      if sqrSinHalfTheta ≤ 0 then
        Quat.normalize ⟨(1 - t) * qa.x + t * qt.x, (1 - t) * qa.y + t * qt.y,
                        (1 - t) * qa.z + t * qt.z, (1 - t) * qa.w + t * qt.w⟩
      else
        let sinHalfTheta := Real.sqrt sqrSinHalfTheta
        let halfTheta := Real.arccos cosHalfTheta
        let ratioA := Real.sin ((1 - t) * halfTheta) / sinHalfTheta
        let ratioB := Real.sin (t * halfTheta) / sinHalfTheta
        ⟨qa.x * ratioA + qt.x * ratioB, qa.y * ratioA + qt.y * ratioB,
         qa.z * ratioA + qt.z * ratioB, qa.w * ratioA + qt.w * ratioB⟩

/-- The transform data of a `THREE.Object3D` that the core logic reads and
writes: position, Euler rotation, quaternion orientation, and scale.
The scatter branch of `Particle.update` writes the Euler `rotation`, the
other branches write the `quaternion`, exactly as the source does. -/
structure Mesh where
  position : Vec3
  rotation : Vec3
  quaternion : Quat
  scale : Vec3

/-- The interaction mode held in `STATE.mode`. -/
inductive Mode
  | TREE
  | SCATTER
  | FOCUS
deriving DecidableEq

/-- The particle category held in `Particle.type`. -/
inductive PType
  | ORNAMENT
  | PHOTO
  | DUST
  | CANDY
deriving DecidableEq

/-- The global `STATE` object: mode, focus target (an index into the particle
list, modelling the object reference), the hand-rotation signal, and the
loading flag. -/
structure InteractionState where
  mode : Mode
  targetPhoto : Option ℕ
  handRotX : ℝ
  handRotY : ℝ
  isLoaded : Bool

/-- The initial `STATE` literal of the source: TREE mode, no focus target,
zero hand rotation, not loaded. -/
def initialState : InteractionState :=
  ⟨Mode.TREE, none, 0, 0, false⟩

/-- One managed scene object (class `Particle` of the source). -/
structure Particle where
  mesh : Mesh
  type : PType
  baseScale : Vec3
  treePos : Vec3
  treeRot : Vec3
  scatterPos : Vec3
  scatterVel : Vec3

/-- The body of `Particle.calculatePositions`: from six random draws (seven
for CANDY) it produces the scatter position, tree position, tree rotation,
and the advanced random cursor.  Draw order follows the source: scatter
`u`, `v`, radius; tree height `h`, x-jitter, z-jitter; candy roll. -/
def calcPositions (type : PType) (g : ℕ → ℝ) (k : ℕ) : Vec3 × Vec3 × Vec3 × ℕ :=
  let u := g k
  let v := g (k + 1)
  let theta := 2 * Real.pi * u
  let phi := Real.arccos (2 * v - 1)
  let r := 8 + g (k + 2) * 12
  let scatterPos : Vec3 :=
    ⟨r * Real.sin phi * Real.cos theta,
     r * Real.sin phi * Real.sin theta,
     r * Real.cos phi⟩
  let h := g (k + 3)
  let y := h * 30 - 15
  let maxRadius : ℝ := 12
  let radius := maxRadius * (1 - h) + 0.5
  let angle := h * 50
  let jitter : ℝ := 1.0
  let treePos : Vec3 :=
    ⟨Real.cos angle * radius + (g (k + 4) - 0.5) * jitter,
     y,
     Real.sin angle * radius + (g (k + 5) - 0.5) * jitter⟩
  let treeRot : Vec3 :=
    if type = PType.CANDY then ⟨Real.pi, -angle, g (k + 6) * 0.5⟩
    else ⟨0, -angle, 0⟩
  let k2 := if type = PType.CANDY then k + 7 else k + 6
  (scatterPos, treePos, treeRot, k2)

/-- `Particle.calculatePositions` as a state transformer on the particle:
it overwrites `scatterPos`, `treePos` and `treeRot` with freshly drawn
values and returns the advanced cursor. -/
def Particle.calculatePositions (p : Particle) (g : ℕ → ℝ) (k : ℕ) : Particle × ℕ :=
  let res := calcPositions p.type g k
  ({ p with scatterPos := res.1, treePos := res.2.1, treeRot := res.2.2.1 }, res.2.2.2)

/-- The `Particle` constructor: records the base scale, draws the scatter
angular velocity (three draws scaled by 0.02), runs `calculatePositions`,
copies the scatter position into the mesh position, and sets a random
initial Euler rotation (two draws scaled by π, z = 0). -/
def mkParticle (mesh : Mesh) (type : PType) (g : ℕ → ℝ) (k : ℕ) : Particle × ℕ :=
  let baseScale := mesh.scale
  let scatterVel := (Vec3.mk (g k - 0.5) (g (k + 1) - 0.5) (g (k + 2) - 0.5)).smul 0.02
  let res := calcPositions type g (k + 3)
  let scatterPos := res.1
  let treePos := res.2.1
  let treeRot := res.2.2.1
  let k2 := res.2.2.2
  let mesh2 := { mesh with
    position := scatterPos,
    rotation := ⟨g k2 * Real.pi, g (k2 + 1) * Real.pi, 0⟩ }
  ({ mesh := mesh2, type := type, baseScale := baseScale, treePos := treePos,
     treeRot := treeRot, scatterPos := scatterPos, scatterVel := scatterVel },
   k2 + 2)

/-- The common tail of `Particle.update` for the non-scatter modes: lerp the
position and the scale toward their targets with factor 0.05 and slerp the
quaternion toward the quaternion of the target Euler rotation. -/
def applyLerps (p : Particle) (targetPos targetScale targetRot : Vec3) : Particle :=
  { p with mesh := { p.mesh with
      position := p.mesh.position.lerp targetPos 0.05,
      scale := p.mesh.scale.lerp targetScale 0.05,
      quaternion := p.mesh.quaternion.slerp (Quat.setFromEuler targetRot) 0.05 } }

/-- `Particle.update(dt)`.  `selfIdx` is the index of this particle in the
particle list; the source's reference identity test
`this === STATE.targetPhoto` becomes `st.targetPhoto = some selfIdx`.
The SCATTER branch increments the Euler rotation's x and y components by the
scatter velocity, lerps the position, and returns before the scale lerp and
the quaternion slerp, exactly as the early `return` in the source does.
`dt` is accepted but unused, as in the source. -/
def Particle.update (p : Particle) (st : InteractionState) (selfIdx : ℕ) (dt : ℝ) : Particle :=
  match st.mode with
  | Mode.TREE =>
      applyLerps p p.treePos p.baseScale p.treeRot
  | Mode.SCATTER =>
      let targetPos := p.scatterPos
      let mesh1 := { p.mesh with
        rotation := ⟨p.mesh.rotation.x + p.scatterVel.x,
                     p.mesh.rotation.y + p.scatterVel.y,
                     p.mesh.rotation.z⟩ }
      let mesh2 := { mesh1 with position := mesh1.position.lerp targetPos 0.05 }
      { p with mesh := mesh2 }
  | Mode.FOCUS =>
      if st.targetPhoto = some selfIdx then
        applyLerps p ⟨0, 2, 35⟩ (p.baseScale.smul 4.5) ⟨0, 0, 0⟩
      else
        applyLerps p (p.scatterPos.smul 1.5) p.baseScale ⟨0, 0, 0⟩

/-- The target position that `Particle.update` steers the position toward in
the current mode (the `targetPos` local of the source). -/
def targetPosOf (st : InteractionState) (selfIdx : ℕ) (p : Particle) : Vec3 :=
  match st.mode with
  | Mode.TREE => p.treePos
  | Mode.SCATTER => p.scatterPos
  | Mode.FOCUS =>
      if st.targetPhoto = some selfIdx then ⟨0, 2, 35⟩
      else p.scatterPos.smul 1.5

/-- A mesh with all-zero transform and unit scale; placeholder used when a
default `Particle` value is needed for safe list indexing. -/
def defaultMesh : Mesh :=
  ⟨⟨0, 0, 0⟩, ⟨0, 0, 0⟩, ⟨0, 0, 0, 1⟩, ⟨1, 1, 1⟩⟩

/-- Default particle used only as the out-of-range fallback of `List.getD`. -/
def defaultParticle : Particle :=
  ⟨defaultMesh, PType.ORNAMENT, ⟨1, 1, 1⟩, ⟨0, 0, 0⟩, ⟨0, 0, 0⟩, ⟨0, 0, 0⟩, ⟨0, 0, 0⟩⟩

/-- The fresh `THREE.Group` created by `addPhotoToScene` (identity transform,
unit scale). -/
def photoMesh : Mesh :=
  ⟨⟨0, 0, 0⟩, ⟨0, 0, 0⟩, ⟨0, 0, 0, 1⟩, ⟨1, 1, 1⟩⟩

/-- Indices of the particles whose type is PHOTO, modelling
`particles.filter(p => p.type === 'PHOTO')` with references replaced by
indices into the list. -/
def photoIndices (ps : List Particle) : List ℕ :=
  (List.range ps.length).filter fun i => decide ((ps.getD i defaultParticle).type = PType.PHOTO)

/-- `addPhotoToScene`: constructs a PHOTO particle, appends it to the list,
and then calls `calculatePositions` on it a second time (the in-place
mutation of the appended object is modelled by appending the recomputed
particle).  Returns the new list, the registered particle, and the cursor. -/
def addPhotoToScene (ps : List Particle) (g : ℕ → ℝ) (k : ℕ) : List Particle × Particle × ℕ :=
  let res := mkParticle photoMesh PType.PHOTO g k
  let res2 := res.1.calculatePositions g res.2
  (ps ++ [res2.1], res2.1, res2.2)

/-- The `fileInput` change handler after a texture loads: register the new
photo through `addPhotoToScene`, then set `STATE.mode = 'TREE'`.  Note that
the handler does not touch `STATE.targetPhoto`. -/
def uploadStep (ps : List Particle) (st : InteractionState) (g : ℕ → ℝ) (k : ℕ) :
    List Particle × InteractionState × ℕ :=
  let res := addPhotoToScene ps g k
  (res.1, { st with mode := Mode.TREE }, res.2.2)

/-- One hand landmark; the source only reads the x and y coordinates. -/
structure Landmark where
  x : ℝ
  y : ℝ

/-- `Math.hypot` on two arguments. -/
def hypot (x y : ℝ) : ℝ :=
  Real.sqrt (x ^ 2 + y ^ 2)

/-- `pinchDist`: distance between the thumb tip (landmark 4) and the index
fingertip (landmark 8). -/
def pinchDistOf (lm : Fin 21 → Landmark) : ℝ :=
  hypot ((lm 4).x - (lm 8).x) ((lm 4).y - (lm 8).y)

/-- `avgTipDist`: mean of the distances from the wrist (landmark 0) to the
index, middle, ring and pinky fingertips (landmarks 8, 12, 16, 20). -/
def avgTipDistOf (lm : Fin 21 → Landmark) : ℝ :=
  (hypot ((lm 8).x - (lm 0).x) ((lm 8).y - (lm 0).y) +
   hypot ((lm 12).x - (lm 0).x) ((lm 12).y - (lm 0).y) +
   hypot ((lm 16).x - (lm 0).x) ((lm 16).y - (lm 0).y) +
   hypot ((lm 20).x - (lm 0).x) ((lm 20).y - (lm 0).y)) / 4

/-- The mode/focus-target logic of `predictWebcam` as a function of the two
derived distances.  `rnd` models the `Math.random()` draw of the photo pick
(a value in `[0,1)` at runtime). -/
def gestureStep (particles : List Particle) (st : InteractionState)
    (pinchDist avgTipDist rnd : ℝ) : InteractionState :=
  if pinchDist < 0.05 then
    let targetPhoto :=
      if st.targetPhoto = none then
        let photos := photoIndices particles
        if 0 < photos.length then photos[(Nat.floor (rnd * photos.length))]?
        else st.targetPhoto
      else st.targetPhoto
    { st with mode := Mode.FOCUS, targetPhoto := targetPhoto }
  else if avgTipDist < 0.25 then
    { st with mode := Mode.TREE, targetPhoto := none }
  else if avgTipDist > 0.4 then
    { st with mode := Mode.SCATTER, targetPhoto := none }
  else st

/-- One detection tick of `predictWebcam` on a frame in which a hand was
detected: run the gesture logic on the derived distances, then recompute the
hand-rotation signal from the palm-center landmark (index 9). -/
def detectStep (particles : List Particle) (st : InteractionState)
    (lm : Fin 21 → Landmark) (rnd : ℝ) : InteractionState :=
  let st1 := gestureStep particles st (pinchDistOf lm) (avgTipDistOf lm) rnd
  { st1 with handRotY := ((lm 9).x - 0.5) * 2, handRotX := ((lm 9).y - 0.5) * 1 }

/-- One detection tick including the no-hand case: when the landmark list is
empty the state is left untouched. -/
def detectTick (particles : List Particle) (st : InteractionState)
    (result : Option (Fin 21 → Landmark)) (rnd : ℝ) : InteractionState :=
  match result with
  | none => st
  | some lm => detectStep particles st lm rnd

/-- The all-zero random stream, used to instantiate randomized definitions at
a concrete input. -/
def gZero : ℕ → ℝ := fun _ => 0

/-- A random stream whose fifteenth draw is 1/2 and all others are 0.  Draw
number 14 is the tree-height draw of the second `calculatePositions` call
performed by `addPhotoToScene` when the stream is started at cursor 0. -/
def gRecalc : ℕ → ℝ := fun n => if n = 14 then 1 / 2 else 0

/-- A state in FOCUS mode with particle 0 as the focus target. -/
def stFocus : InteractionState := ⟨Mode.FOCUS, some 0, 0, 0, true⟩

/-- A state in SCATTER mode with no focus target. -/
def stScatter : InteractionState := ⟨Mode.SCATTER, none, 0, 0, true⟩

/-- A concrete particle with nonzero scatter angular velocity on all three
axes, sitting at the origin with identity orientation. -/
def pScatter : Particle :=
  { mesh := defaultMesh, type := PType.ORNAMENT, baseScale := ⟨1, 1, 1⟩,
    treePos := ⟨3, 4, 0⟩, treeRot := ⟨0, 0, 0⟩,
    scatterPos := ⟨10, 0, 0⟩, scatterVel := ⟨0.01, 0.01, 0.01⟩ }

/-- A concrete particle of type PHOTO. -/
def pPhoto : Particle :=
  { defaultParticle with type := PType.PHOTO }

/-- A concrete landmark frame: every landmark sits at (0.5, 0.5) except the
index fingertip (landmark 8) at (0.53, 0.5), giving a pinch distance of
exactly 0.03. -/
def lmPinch : Fin 21 → Landmark := fun i =>
  if i = 8 then ⟨0.53, 0.5⟩ else ⟨0.5, 0.5⟩

/-- A concrete landmark frame with palm center at (0.7, 0.1) and all other
landmarks far enough apart to fall in the ambiguous zone. -/
def lmPalm : Fin 21 → Landmark := fun i =>
  if i = 9 then ⟨0.7, 0.1⟩ else if i = 0 then ⟨0.2, 0.5⟩ else ⟨0.5, 0.5⟩

/-- Distances are nonnegative. -/
theorem dist_nonneg_vec (a b : Vec3) : 0 ≤ Vec3.dist a b :=
  Real.sqrt_nonneg _

/-- One lerp step with factor 0.05 scales the distance to the target by
exactly 0.95. -/
theorem dist_lerp_eq (a b : Vec3) :
    Vec3.dist (a.lerp b 0.05) b = 0.95 * Vec3.dist a b := by
  simp only [Vec3.dist, Vec3.lerp]
  have h : (a.x + (b.x - a.x) * 0.05 - b.x) ^ 2 + (a.y + (b.y - a.y) * 0.05 - b.y) ^ 2 +
      (a.z + (b.z - a.z) * 0.05 - b.z) ^ 2
      = (0.95 : ℝ) ^ 2 * ((a.x - b.x) ^ 2 + (a.y - b.y) ^ 2 + (a.z - b.z) ^ 2) := by ring
  rw [h, Real.sqrt_mul (by positivity), Real.sqrt_sq (by norm_num)]

/-- The distance vanishes exactly on equal points. -/
theorem dist_eq_zero_iff_vec (a b : Vec3) : Vec3.dist a b = 0 ↔ a = b := by
  obtain ⟨a1, a2, a3⟩ := a
  obtain ⟨b1, b2, b3⟩ := b
  constructor
  · intro h
    have hs : (a1 - b1) ^ 2 + (a2 - b2) ^ 2 + (a3 - b3) ^ 2 ≤ 0 :=
      Real.sqrt_eq_zero'.mp h
    have h1 : (a1 - b1) ^ 2 = 0 :=
      le_antisymm (by nlinarith [sq_nonneg (a2 - b2), sq_nonneg (a3 - b3)]) (sq_nonneg _)
    have h2 : (a2 - b2) ^ 2 = 0 :=
      le_antisymm (by nlinarith [sq_nonneg (a1 - b1), sq_nonneg (a3 - b3)]) (sq_nonneg _)
    have h3 : (a3 - b3) ^ 2 = 0 :=
      le_antisymm (by nlinarith [sq_nonneg (a1 - b1), sq_nonneg (a2 - b2)]) (sq_nonneg _)
    have e1 : a1 = b1 := by have := sq_eq_zero_iff.mp h1; linarith
    have e2 : a2 = b2 := by have := sq_eq_zero_iff.mp h2; linarith
    have e3 : a3 = b3 := by have := sq_eq_zero_iff.mp h3; linarith
    simp [e1, e2, e3]
  · intro h
    injection h with e1 e2 e3
    simp [Vec3.dist, e1, e2, e3]

/-- In every mode, the position written by `Particle.update` is the 0.05-lerp
of the current position toward the mode's target position. -/
theorem update_position_eq (st : InteractionState) (i : ℕ) (p : Particle) (dt : ℝ) :
    (p.update st i dt).mesh.position = p.mesh.position.lerp (targetPosOf st i p) 0.05 := by
  cases hm : st.mode <;>
    simp only [Particle.update, targetPosOf, hm, applyLerps] <;>
    try rfl
  split <;> rfl

/-- `Particle.update` never touches the cached layout targets, the scatter
angular velocity, the base scale, or the category of a particle. -/
theorem update_keeps_targets (st : InteractionState) (i : ℕ) (p : Particle) (dt : ℝ) :
    (p.update st i dt).treePos = p.treePos ∧ (p.update st i dt).treeRot = p.treeRot ∧
    (p.update st i dt).scatterPos = p.scatterPos ∧
    (p.update st i dt).scatterVel = p.scatterVel ∧
    (p.update st i dt).baseScale = p.baseScale ∧ (p.update st i dt).type = p.type := by
  cases hm : st.mode <;>
    simp only [Particle.update, hm, applyLerps] <;>
    try simp
  split <;> simp

/-- The mode target position is unchanged by an update step. -/
theorem targetPosOf_update (st : InteractionState) (i : ℕ) (p : Particle) (dt : ℝ) :
    targetPosOf st i (p.update st i dt) = targetPosOf st i p := by
  obtain ⟨-, -, hsc, -, -, -⟩ := update_keeps_targets st i p dt
  obtain ⟨htr, -, -, -, -, -⟩ := update_keeps_targets st i p dt
  cases hm : st.mode <;> simp only [targetPosOf, hm, htr, hsc]

/-- After `n` update steps the distance to the (constant) mode target has
decayed by exactly the factor `0.95 ^ n`. -/
theorem dist_update_iter (st : InteractionState) (i : ℕ) (dt : ℝ) (p : Particle) (n : ℕ) :
    Vec3.dist ((fun q => Particle.update q st i dt)^[n] p).mesh.position (targetPosOf st i p)
      = 0.95 ^ n * Vec3.dist p.mesh.position (targetPosOf st i p) := by
  induction n generalizing p with
  | zero => simp
  | succ n ih =>
      rw [Function.iterate_succ_apply]
      have step : Vec3.dist (p.update st i dt).mesh.position (targetPosOf st i p)
          = 0.95 * Vec3.dist p.mesh.position (targetPosOf st i p) := by
        rw [update_position_eq, dist_lerp_eq]
      calc Vec3.dist ((fun q => Particle.update q st i dt)^[n] (p.update st i dt)).mesh.position
            (targetPosOf st i p)
          = Vec3.dist ((fun q => Particle.update q st i dt)^[n] (p.update st i dt)).mesh.position
            (targetPosOf st i (p.update st i dt)) := by rw [targetPosOf_update]
        _ = 0.95 ^ n * Vec3.dist (p.update st i dt).mesh.position
            (targetPosOf st i (p.update st i dt)) := ih (p.update st i dt)
        _ = 0.95 ^ n * Vec3.dist (p.update st i dt).mesh.position (targetPosOf st i p) := by
            rw [targetPosOf_update]
        _ = 0.95 ^ (n + 1) * Vec3.dist p.mesh.position (targetPosOf st i p) := by
            rw [step]; ring

/-- A pinch reading always yields FOCUS mode. -/
theorem gestureStep_focus_mode (ps : List Particle) (st : InteractionState)
    (pd ad rnd : ℝ) (h : pd < 0.05) :
    (gestureStep ps st pd ad rnd).mode = Mode.FOCUS := by
  unfold gestureStep
  rw [if_pos h]

/-- A fist reading (no pinch, tips close) resets to TREE and clears the
target. -/
theorem gestureStep_tree_eq (ps : List Particle) (st : InteractionState)
    (pd ad rnd : ℝ) (h1 : ¬ pd < 0.05) (h2 : ad < 0.25) :
    gestureStep ps st pd ad rnd = { st with mode := Mode.TREE, targetPhoto := none } := by
  unfold gestureStep
  rw [if_neg h1, if_pos h2]

/-- An open-hand reading switches to SCATTER and clears the target. -/
theorem gestureStep_scatter_eq (ps : List Particle) (st : InteractionState)
    (pd ad rnd : ℝ) (h1 : ¬ pd < 0.05) (h2 : ¬ ad < 0.25) (h3 : ad > 0.4) :
    gestureStep ps st pd ad rnd = { st with mode := Mode.SCATTER, targetPhoto := none } := by
  unfold gestureStep
  rw [if_neg h1, if_neg h2, if_pos h3]

/-- An ambiguous reading leaves the state untouched. -/
theorem gestureStep_ambiguous_eq (ps : List Particle) (st : InteractionState)
    (pd ad rnd : ℝ) (h1 : ¬ pd < 0.05) (h2 : ¬ ad < 0.25) (h3 : ¬ ad > 0.4) :
    gestureStep ps st pd ad rnd = st := by
  unfold gestureStep
  rw [if_neg h1, if_neg h2, if_neg h3]

/-- Members of `photoIndices` point at PHOTO particles. -/
theorem mem_photoIndices (ps : List Particle) (i : ℕ) (h : i ∈ photoIndices ps) :
    (ps.getD i defaultParticle).type = PType.PHOTO :=
  of_decide_eq_true (List.mem_filter.mp h).2

/-- The mode after a detection tick is the mode chosen by the gesture logic. -/
theorem detectStep_mode (ps : List Particle) (st : InteractionState)
    (lm : Fin 21 → Landmark) (rnd : ℝ) :
    (detectStep ps st lm rnd).mode
      = (gestureStep ps st (pinchDistOf lm) (avgTipDistOf lm) rnd).mode := rfl

/-- The focus target after a detection tick is the one chosen by the gesture
logic. -/
theorem detectStep_targetPhoto (ps : List Particle) (st : InteractionState)
    (lm : Fin 21 → Landmark) (rnd : ℝ) :
    (detectStep ps st lm rnd).targetPhoto
      = (gestureStep ps st (pinchDistOf lm) (avgTipDistOf lm) rnd).targetPhoto := rfl

/-- C9: on every detection tick in which a hand is detected, the pointer
signal is recomputed from the palm-center landmark (index 9), regardless of
which gesture branch was taken: the horizontal signal equals
(palmX − 0.5) · 2 and the vertical signal equals (palmY − 0.5) · 1. -/
theorem c9_pointer_signal (ps : List Particle) (st : InteractionState)
    (lm : Fin 21 → Landmark) (rnd : ℝ) :
    (detectStep ps st lm rnd).handRotY = ((lm 9).x - 0.5) * 2 ∧
    (detectStep ps st lm rnd).handRotX = ((lm 9).y - 0.5) * 1 :=
  ⟨rfl, rfl⟩

/-- C10: in SCATTER mode an integration tick leaves the scale (and the
quaternion) completely unchanged — the update returns after the position
lerp and the Euler increments — so over any number of SCATTER ticks the
scale keeps the value it had when the mode was entered. -/
theorem c10_scatter_scale_unchanged (st : InteractionState) (i : ℕ) (p : Particle)
    (dt : ℝ) (h : st.mode = Mode.SCATTER) :
    (p.update st i dt).mesh.scale = p.mesh.scale ∧
    (p.update st i dt).mesh.quaternion = p.mesh.quaternion ∧
    (∀ n : ℕ, ((fun q => Particle.update q st i dt)^[n] p).mesh.scale = p.mesh.scale) := by
  have hstep : ∀ q : Particle, (q.update st i dt).mesh.scale = q.mesh.scale ∧
      (q.update st i dt).mesh.quaternion = q.mesh.quaternion := by
    intro q
    simp only [Particle.update, h]
    exact ⟨trivial, trivial⟩
  refine ⟨(hstep p).1, (hstep p).2, ?_⟩
  intro n
  induction n with
  | zero => rfl
  | succ m ih => rw [Function.iterate_succ_apply', (hstep _).1, ih]

/-- C10 witness: a concrete SCATTER tick leaves a concrete particle's scale
unchanged. -/
theorem c10_scatter_scale_unchanged_witness :
    (pScatter.update stScatter 0 0.016).mesh.scale = pScatter.mesh.scale :=
  (c10_scatter_scale_unchanged stScatter 0 pScatter 0.016 rfl).1

/-- C3 counterexample: the claim says the orientation advances by all three
components of the scatter angular velocity, but the z component does not
advance: for a particle with scatterVel.z = 0.01 and rotation.z = 0 the
updated rotation.z is 0, not 0.01. -/
theorem c3_scatter_z_rotation_unchanged :
    ¬ ((pScatter.update stScatter 0 0.016).mesh.rotation.z
        = pScatter.mesh.rotation.z + pScatter.scatterVel.z) := by
  intro h
  have hz : (pScatter.update stScatter 0 0.016).mesh.rotation.z = 0 := rfl
  rw [hz] at h
  have hr : pScatter.mesh.rotation.z + pScatter.scatterVel.z = 0.01 := by
    norm_num [pScatter, defaultMesh]
  rw [hr] at h
  norm_num at h

/-- C3 (amended): in SCATTER mode every integration tick advances the
orientation by the particle's fixed scatter angular velocity on the x and y
components only — the z component is unchanged — not scaled by dt, while
the position moves 5% of the remaining distance toward the scatter target
(distance factor 0.95 per tick). -/
theorem c3_scatter_tick_amended (st : InteractionState) (i : ℕ) (p : Particle)
    (dt : ℝ) (h : st.mode = Mode.SCATTER) :
    (p.update st i dt).mesh.rotation.x = p.mesh.rotation.x + p.scatterVel.x ∧
    (p.update st i dt).mesh.rotation.y = p.mesh.rotation.y + p.scatterVel.y ∧
    (p.update st i dt).mesh.rotation.z = p.mesh.rotation.z ∧
    (p.update st i dt).mesh.position = p.mesh.position.lerp p.scatterPos 0.05 ∧
    Vec3.dist (p.update st i dt).mesh.position p.scatterPos
      = 0.95 * Vec3.dist p.mesh.position p.scatterPos := by
  have hpos : (p.update st i dt).mesh.position = p.mesh.position.lerp p.scatterPos 0.05 := by
    have h1 := update_position_eq st i p dt
    simp only [targetPosOf, h] at h1
    exact h1
  refine ⟨?_, ?_, ?_, hpos, by rw [hpos, dist_lerp_eq]⟩ <;>
    simp only [Particle.update, h]

/-- C3 amended witness: concrete SCATTER tick, rotation.z is unchanged. -/
theorem c3_scatter_tick_amended_witness :
    (pScatter.update stScatter 0 0.016).mesh.rotation.z = pScatter.mesh.rotation.z :=
  (c3_scatter_tick_amended stScatter 0 pScatter 0.016 rfl).2.2.1

/-- C1 counterexample: uploading content while in FOCUS mode with a focus
target switches the mode to TREE yet leaves the focus target assigned —
contradicting the claim that every operation setting the mode to TREE or
SCATTER leaves a null focus target. -/
theorem c1_upload_keeps_focusTarget :
    (uploadStep [] stFocus gZero 0).2.1.mode = Mode.TREE ∧
    (uploadStep [] stFocus gZero 0).2.1.targetPhoto = some 0 ∧
    (uploadStep [] stFocus gZero 0).2.1.targetPhoto ≠ none :=
  ⟨rfl, rfl, fun h => Option.noConfusion h⟩

/-- C1 (amended): the FIST and OPEN gesture transitions do clear the focus
target to null as they set TREE resp. SCATTER mode, but the content-upload
transition only sets the mode to TREE and leaves the focus target exactly
as it was (it is not cleared). -/
theorem c1_focus_target_clearing_amended (ps : List Particle) (st : InteractionState)
    (pd ad rnd : ℝ) (g : ℕ → ℝ) (k : ℕ) :
    (0.05 ≤ pd → ad < 0.25 →
      (gestureStep ps st pd ad rnd).mode = Mode.TREE ∧
      (gestureStep ps st pd ad rnd).targetPhoto = none) ∧
    (0.05 ≤ pd → 0.4 < ad →
      (gestureStep ps st pd ad rnd).mode = Mode.SCATTER ∧
      (gestureStep ps st pd ad rnd).targetPhoto = none) ∧
    ((uploadStep ps st g k).2.1.mode = Mode.TREE ∧
     (uploadStep ps st g k).2.1.targetPhoto = st.targetPhoto) := by
  refine ⟨?_, ?_, rfl, rfl⟩
  · intro h1 h2
    rw [gestureStep_tree_eq ps st pd ad rnd (not_lt.mpr h1) h2]
    exact ⟨rfl, rfl⟩
  · intro h1 h2
    rw [gestureStep_scatter_eq ps st pd ad rnd (not_lt.mpr h1) (by intro hc; linarith) h2]
    exact ⟨rfl, rfl⟩

/-- C1 amended witness: a FIST reading from the FOCUS state with an assigned
target clears the target and sets TREE mode. -/
theorem c1_focus_target_clearing_amended_witness :
    (gestureStep [] stFocus 0.1 0.2 0).mode = Mode.TREE ∧
    (gestureStep [] stFocus 0.1 0.2 0).targetPhoto = none :=
  (c1_focus_target_clearing_amended [] stFocus 0.1 0.2 0 gZero 0).1
    (by norm_num) (by norm_num)

/-- A point given in spherical coordinates with radius `r ≥ 0` has norm `r`. -/
theorem norm_sphere_point (r phi theta : ℝ) (hr : 0 ≤ r) :
    Vec3.norm ⟨r * Real.sin phi * Real.cos theta,
               r * Real.sin phi * Real.sin theta,
               r * Real.cos phi⟩ = r := by
  simp only [Vec3.norm]
  have hs := Real.sin_sq_add_cos_sq phi
  have ht := Real.sin_sq_add_cos_sq theta
  have key : (r * Real.sin phi * Real.cos theta) ^ 2 + (r * Real.sin phi * Real.sin theta) ^ 2 +
      (r * Real.cos phi) ^ 2 = r ^ 2 := by
    linear_combination (r ^ 2 * Real.sin phi ^ 2) * ht + r ^ 2 * hs
  rw [key, Real.sqrt_sq hr]

/-- C7: every scatter position produced by the placement generator has
Euclidean distance from the origin in [8, 20]: the radius draw is
8 + rand·12 with rand ∈ [0, 1) and it scales a unit direction vector. -/
theorem c7_scatter_radius_range (type : PType) (g : ℕ → ℝ) (k : ℕ)
    (h0 : 0 ≤ g (k + 2)) (h1 : g (k + 2) < 1) :
    8 ≤ Vec3.norm (calcPositions type g k).1 ∧ Vec3.norm (calcPositions type g k).1 ≤ 20 := by
  have hr0 : (0 : ℝ) ≤ 8 + g (k + 2) * 12 := by linarith
  have hvec : (calcPositions type g k).1 =
      (⟨(8 + g (k + 2) * 12) * Real.sin (Real.arccos (2 * g (k + 1) - 1)) *
          Real.cos (2 * Real.pi * g k),
        (8 + g (k + 2) * 12) * Real.sin (Real.arccos (2 * g (k + 1) - 1)) *
          Real.sin (2 * Real.pi * g k),
        (8 + g (k + 2) * 12) * Real.cos (Real.arccos (2 * g (k + 1) - 1))⟩ : Vec3) := rfl
  rw [hvec, norm_sphere_point _ _ _ hr0]
  constructor <;> linarith

/-- C7 witness: the all-zero draw gives a scatter position at distance
exactly 8 ≤ · ≤ 20 from the origin. -/
theorem c7_scatter_radius_range_witness :
    8 ≤ Vec3.norm (calcPositions PType.ORNAMENT gZero 0).1 ∧
    Vec3.norm (calcPositions PType.ORNAMENT gZero 0).1 ≤ 20 :=
  c7_scatter_radius_range PType.ORNAMENT gZero 0 (le_refl 0) (by norm_num [gZero])

/-- C8: every tree position has height y = h·30 − 15 ∈ [−15, 15] and
horizontal radius 12·(1−h) + 0.5 ∈ [0.5, 12.5] before the [−0.5, 0.5]
jitter on the two horizontal axes; the yaw is −angle with angle = h·50; a
CANDY object additionally gets a 180° flip on the x axis and a random roll
in [0, 0.5), while other categories keep x = z = 0. -/
theorem c8_tree_position_range (type : PType) (g : ℕ → ℝ) (k : ℕ)
    (h0 : 0 ≤ g (k + 3)) (h1 : g (k + 3) < 1)
    (r0 : 0 ≤ g (k + 6)) (r1 : g (k + 6) < 1) :
    (calcPositions type g k).2.1.y = g (k + 3) * 30 - 15 ∧
    (-15 ≤ (calcPositions type g k).2.1.y ∧ (calcPositions type g k).2.1.y ≤ 15) ∧
    (calcPositions type g k).2.1.x
      = Real.cos (g (k + 3) * 50) * (12 * (1 - g (k + 3)) + 0.5) + (g (k + 4) - 0.5) * 1.0 ∧
    (calcPositions type g k).2.1.z
      = Real.sin (g (k + 3) * 50) * (12 * (1 - g (k + 3)) + 0.5) + (g (k + 5) - 0.5) * 1.0 ∧
    (0.5 ≤ 12 * (1 - g (k + 3)) + 0.5 ∧ 12 * (1 - g (k + 3)) + 0.5 ≤ 12.5) ∧
    (calcPositions type g k).2.2.1.y = -(g (k + 3) * 50) ∧
    (type = PType.CANDY →
      (calcPositions type g k).2.2.1.x = Real.pi ∧
      0 ≤ (calcPositions type g k).2.2.1.z ∧ (calcPositions type g k).2.2.1.z < 0.5) ∧
    (type ≠ PType.CANDY →
      (calcPositions type g k).2.2.1.x = 0 ∧ (calcPositions type g k).2.2.1.z = 0) := by
  have hy : (calcPositions type g k).2.1.y = g (k + 3) * 30 - 15 := rfl
  have hrot : (calcPositions type g k).2.2.1 =
      (if type = PType.CANDY then
        (⟨Real.pi, -(g (k + 3) * 50), g (k + 6) * 0.5⟩ : Vec3)
      else ⟨0, -(g (k + 3) * 50), 0⟩) := rfl
  refine ⟨hy, ⟨?_, ?_⟩, rfl, rfl, ⟨?_, ?_⟩, ?_, ?_, ?_⟩
  · rw [hy]; linarith
  · rw [hy]; linarith
  · linarith
  · linarith
  · rw [hrot]; split <;> rfl
  · intro hc
    rw [hrot, if_pos hc]
    refine ⟨rfl, ?_, ?_⟩ <;> simp only [] <;> nlinarith
  · intro hc
    rw [hrot, if_neg hc]
    exact ⟨rfl, rfl⟩

/-- C8 witness at the all-zero draw. -/
theorem c8_tree_position_range_witness :
    -15 ≤ (calcPositions PType.ORNAMENT gZero 0).2.1.y ∧
    (calcPositions PType.ORNAMENT gZero 0).2.1.y ≤ 15 :=
  (c8_tree_position_range PType.ORNAMENT gZero 0 (le_refl 0) (by norm_num [gZero])
    (le_refl 0) (by norm_num [gZero])).2.1

/-- C2 counterexample: with the random stream `gRecalc`, the tree rotation of
the PHOTO particle as computed at construction has yaw 0, but the particle
returned by `addPhotoToScene` carries yaw −25: registering a new PHOTO
object computes its layout targets a second time, after construction. -/
theorem c2_addPhoto_recomputes_targets :
    (addPhotoToScene [] gRecalc 0).2.1.treeRot.y
      ≠ (mkParticle photoMesh PType.PHOTO gRecalc 0).1.treeRot.y := by
  have h1 : (addPhotoToScene [] gRecalc 0).2.1.treeRot.y = -(gRecalc 14 * 50) := rfl
  have h2 : (mkParticle photoMesh PType.PHOTO gRecalc 0).1.treeRot.y = -(gRecalc 6 * 50) := rfl
  rw [h1, h2]
  norm_num [gRecalc]

/-- C2 (amended): the motion integrator never recomputes or mutates a
particle's layout targets (treePos, treeRot, scatterPos, scatterVel), so
after registration they are fixed; however, registering a new PHOTO object
through `addPhotoToScene` runs `calculatePositions` a second time after the
constructor already did, re-randomizing both layout targets once at
registration time. -/
theorem c2_targets_immutable_amended :
    (∀ (st : InteractionState) (i : ℕ) (p : Particle) (dt : ℝ),
      (p.update st i dt).treePos = p.treePos ∧ (p.update st i dt).treeRot = p.treeRot ∧
      (p.update st i dt).scatterPos = p.scatterPos ∧
      (p.update st i dt).scatterVel = p.scatterVel) ∧
    (∀ (ps : List Particle) (g : ℕ → ℝ) (k : ℕ), addPhotoToScene ps g k =
      (ps ++ [((mkParticle photoMesh PType.PHOTO g k).1.calculatePositions g
          (mkParticle photoMesh PType.PHOTO g k).2).1],
       ((mkParticle photoMesh PType.PHOTO g k).1.calculatePositions g
          (mkParticle photoMesh PType.PHOTO g k).2).1,
       ((mkParticle photoMesh PType.PHOTO g k).1.calculatePositions g
          (mkParticle photoMesh PType.PHOTO g k).2).2)) := by
  constructor
  · intro st i p dt
    obtain ⟨e1, e2, e3, e4, -, -⟩ := update_keeps_targets st i p dt
    exact ⟨e1, e2, e3, e4⟩
  · intro ps g k
    rfl

/-- Componentwise a lerp with factor 0.05 stays between start and target. -/
theorem lerp_coord_between (a b : ℝ) :
    min a b ≤ a + (b - a) * 0.05 ∧ a + (b - a) * 0.05 ≤ max a b := by
  rcases le_total a b with hc | hc
  · rw [min_eq_left hc, max_eq_right hc]
    constructor <;> nlinarith
  · rw [min_eq_right hc, max_eq_left hc]
    constructor <;> nlinarith

/-- C6: under a constant target and a mode that smooths position (TREE or
FOCUS), integration ticks converge monotonically: the position is lerped
toward the mode target, the distance shrinks by the exact factor 0.95 each
tick, strictly decreases while nonzero, each coordinate stays between its
old value and the target (no overshoot), the n-tick distance is 0.95ⁿ times
the initial one, and the distance tends to zero. -/
theorem c6_lerp_convergence (st : InteractionState) (i : ℕ) (p : Particle) (dt : ℝ)
    (h : st.mode = Mode.TREE ∨ st.mode = Mode.FOCUS) :
    (p.update st i dt).mesh.position = p.mesh.position.lerp (targetPosOf st i p) 0.05 ∧
    Vec3.dist (p.update st i dt).mesh.position (targetPosOf st i p)
      = 0.95 * Vec3.dist p.mesh.position (targetPosOf st i p) ∧
    (p.mesh.position ≠ targetPosOf st i p →
      Vec3.dist (p.update st i dt).mesh.position (targetPosOf st i p)
        < Vec3.dist p.mesh.position (targetPosOf st i p)) ∧
    (min p.mesh.position.x (targetPosOf st i p).x ≤ (p.update st i dt).mesh.position.x ∧
      (p.update st i dt).mesh.position.x ≤ max p.mesh.position.x (targetPosOf st i p).x) ∧
    (min p.mesh.position.y (targetPosOf st i p).y ≤ (p.update st i dt).mesh.position.y ∧
      (p.update st i dt).mesh.position.y ≤ max p.mesh.position.y (targetPosOf st i p).y) ∧
    (min p.mesh.position.z (targetPosOf st i p).z ≤ (p.update st i dt).mesh.position.z ∧
      (p.update st i dt).mesh.position.z ≤ max p.mesh.position.z (targetPosOf st i p).z) ∧
    (∀ n : ℕ, Vec3.dist ((fun q => Particle.update q st i dt)^[n] p).mesh.position
        (targetPosOf st i p) = 0.95 ^ n * Vec3.dist p.mesh.position (targetPosOf st i p)) ∧
    Filter.Tendsto (fun n : ℕ =>
        Vec3.dist ((fun q => Particle.update q st i dt)^[n] p).mesh.position
          (targetPosOf st i p))
      Filter.atTop (nhds 0) := by
  have hpos := update_position_eq st i p dt
  have hdist : Vec3.dist (p.update st i dt).mesh.position (targetPosOf st i p)
      = 0.95 * Vec3.dist p.mesh.position (targetPosOf st i p) := by
    rw [hpos, dist_lerp_eq]
  refine ⟨hpos, hdist, ?_, ?_, ?_, ?_, dist_update_iter st i dt p, ?_⟩
  · intro hne
    have hne0 : Vec3.dist p.mesh.position (targetPosOf st i p) ≠ 0 :=
      fun h0 => hne ((dist_eq_zero_iff_vec _ _).mp h0)
    have hd0 : 0 < Vec3.dist p.mesh.position (targetPosOf st i p) :=
      lt_of_le_of_ne (dist_nonneg_vec _ _) (Ne.symm hne0)
    rw [hdist]
    nlinarith
  · rw [hpos]; exact lerp_coord_between _ _
  · rw [hpos]; exact lerp_coord_between _ _
  · rw [hpos]; exact lerp_coord_between _ _
  · have base : Filter.Tendsto (fun n : ℕ =>
        (0.95 : ℝ) ^ n * Vec3.dist p.mesh.position (targetPosOf st i p))
        Filter.atTop (nhds 0) := by
      have hp := tendsto_pow_atTop_nhds_zero_of_lt_one
        (by norm_num : (0 : ℝ) ≤ 0.95) (by norm_num : (0.95 : ℝ) < 1)
      have := hp.mul_const (Vec3.dist p.mesh.position (targetPosOf st i p))
      rwa [zero_mul] at this
    exact base.congr fun n => (dist_update_iter st i dt p n).symm

/-- C6 witness: one concrete TREE-mode tick scales the distance to the tree
target by exactly 0.95. -/
theorem c6_lerp_convergence_witness :
    Vec3.dist (pScatter.update initialState 0 1).mesh.position
        (targetPosOf initialState 0 pScatter)
      = 0.95 * Vec3.dist pScatter.mesh.position (targetPosOf initialState 0 pScatter) :=
  (c6_lerp_convergence initialState 0 pScatter 1 (Or.inl rfl)).2.1

/-- C4: for every landmark frame the classifier decides in priority order —
pinch < 0.05 gives FOCUS regardless of the tip distance; otherwise tips
< 0.25 gives TREE; otherwise tips > 0.4 gives SCATTER; otherwise (ambiguous
zone) the prior mode and target persist — together with the four concrete
instances: pinch 0.03 → FOCUS, tips 0.20 (pinch ≥ 0.05) → TREE, tips 0.45
(pinch ≥ 0.05) → SCATTER, tips 0.30 with pinch 0.10 → no change. -/
theorem c4_classifier_priority (ps : List Particle) (st : InteractionState)
    (lm : Fin 21 → Landmark) (rnd : ℝ) :
    (pinchDistOf lm < 0.05 → (detectStep ps st lm rnd).mode = Mode.FOCUS) ∧
    (0.05 ≤ pinchDistOf lm → avgTipDistOf lm < 0.25 →
      (detectStep ps st lm rnd).mode = Mode.TREE) ∧
    (0.05 ≤ pinchDistOf lm → 0.4 < avgTipDistOf lm →
      (detectStep ps st lm rnd).mode = Mode.SCATTER) ∧
    (0.05 ≤ pinchDistOf lm → 0.25 ≤ avgTipDistOf lm → avgTipDistOf lm ≤ 0.4 →
      (detectStep ps st lm rnd).mode = st.mode ∧
      (detectStep ps st lm rnd).targetPhoto = st.targetPhoto) ∧
    (pinchDistOf lm = 0.03 → (detectStep ps st lm rnd).mode = Mode.FOCUS) ∧
    (0.05 ≤ pinchDistOf lm → avgTipDistOf lm = 0.20 →
      (detectStep ps st lm rnd).mode = Mode.TREE) ∧
    (0.05 ≤ pinchDistOf lm → avgTipDistOf lm = 0.45 →
      (detectStep ps st lm rnd).mode = Mode.SCATTER) ∧
    (pinchDistOf lm = 0.10 → avgTipDistOf lm = 0.30 →
      (detectStep ps st lm rnd).mode = st.mode ∧
      (detectStep ps st lm rnd).targetPhoto = st.targetPhoto) := by
  refine ⟨?_, ?_, ?_, ?_, ?_, ?_, ?_, ?_⟩
  · intro h
    rw [detectStep_mode, gestureStep_focus_mode _ _ _ _ _ h]
  · intro h1 h2
    rw [detectStep_mode, gestureStep_tree_eq _ _ _ _ _ (not_lt.mpr h1) h2]
  · intro h1 h3
    rw [detectStep_mode,
      gestureStep_scatter_eq _ _ _ _ _ (not_lt.mpr h1) (by intro hc; linarith) h3]
  · intro h1 h2 h3
    rw [detectStep_mode, detectStep_targetPhoto,
      gestureStep_ambiguous_eq _ _ _ _ _ (not_lt.mpr h1) (not_lt.mpr h2) (not_lt.mpr h3)]
    exact ⟨rfl, rfl⟩
  · intro h
    rw [detectStep_mode, gestureStep_focus_mode _ _ _ _ _ (by rw [h]; norm_num)]
  · intro h1 h2
    rw [detectStep_mode,
      gestureStep_tree_eq _ _ _ _ _ (not_lt.mpr h1) (by rw [h2]; norm_num)]
  · intro h1 h2
    rw [detectStep_mode, gestureStep_scatter_eq _ _ _ _ _ (not_lt.mpr h1)
      (by rw [h2]; norm_num) (by rw [h2]; norm_num)]
  · intro h1 h2
    rw [detectStep_mode, detectStep_targetPhoto,
      gestureStep_ambiguous_eq _ _ _ _ _ (by rw [h1]; norm_num) (by rw [h2]; norm_num)
        (by rw [h2]; norm_num)]
    exact ⟨rfl, rfl⟩

/-- C4 witness: the concrete frame `lmPinch` has pinch distance exactly 0.03
and is classified FOCUS. -/
theorem c4_classifier_priority_witness :
    pinchDistOf lmPinch = 0.03 ∧ (detectStep [] initialState lmPinch 0).mode = Mode.FOCUS := by
  have e4 : lmPinch 4 = ⟨0.5, 0.5⟩ := rfl
  have e8 : lmPinch 8 = ⟨0.53, 0.5⟩ := rfl
  have hp : pinchDistOf lmPinch = 0.03 := by
    have hsq : ((lmPinch 4).x - (lmPinch 8).x) ^ 2 + ((lmPinch 4).y - (lmPinch 8).y) ^ 2
        = (0.03 : ℝ) ^ 2 := by
      rw [e4, e8]; norm_num
    show Real.sqrt (((lmPinch 4).x - (lmPinch 8).x) ^ 2 + ((lmPinch 4).y - (lmPinch 8).y) ^ 2)
      = 0.03
    rw [hsq, Real.sqrt_sq (by norm_num)]
  exact ⟨hp, (c4_classifier_priority [] initialState lmPinch 0).2.2.2.2.1 hp⟩

/-- On a pinch, the new focus target is the one selected by the photo-pick
logic: unchanged if already set, otherwise a random pick from the PHOTO
list when that list is nonempty. -/
theorem gestureStep_focus_targetPhoto (ps : List Particle) (st : InteractionState)
    (pd ad rnd : ℝ) (h : pd < 0.05) :
    (gestureStep ps st pd ad rnd).targetPhoto =
      if st.targetPhoto = none then
        (if 0 < (photoIndices ps).length
         then (photoIndices ps)[(Nat.floor (rnd * (photoIndices ps).length))]?
         else st.targetPhoto)
      else st.targetPhoto := by
  unfold gestureStep
  rw [if_pos h]

/-- C5: on a PINCH gesture the mode becomes FOCUS; with no target set and at
least one PHOTO object, a target belonging to the PHOTO list is assigned
(and every PHOTO index is reachable for a suitable random draw); with no
target and zero PHOTO objects the target stays unset without error; with a
target already assigned a further PINCH keeps the same target. -/
theorem c5_focus_target_selection (ps : List Particle) (st : InteractionState)
    (pd ad rnd : ℝ) (hp : pd < 0.05) :
    (gestureStep ps st pd ad rnd).mode = Mode.FOCUS ∧
    (st.targetPhoto = none → photoIndices ps ≠ [] → 0 ≤ rnd → rnd < 1 →
      ∃ i, (gestureStep ps st pd ad rnd).targetPhoto = some i ∧
        i ∈ photoIndices ps ∧ (ps.getD i defaultParticle).type = PType.PHOTO) ∧
    (st.targetPhoto = none → photoIndices ps = [] →
      (gestureStep ps st pd ad rnd).targetPhoto = none) ∧
    (∀ t, st.targetPhoto = some t →
      (gestureStep ps st pd ad rnd).targetPhoto = some t) ∧
    (∀ n, st.targetPhoto = none → (hn : n < (photoIndices ps).length) →
      rnd = n / ((photoIndices ps).length : ℝ) →
      (gestureStep ps st pd ad rnd).targetPhoto = some ((photoIndices ps)[n])) := by
  refine ⟨gestureStep_focus_mode ps st pd ad rnd hp, ?_, ?_, ?_, ?_⟩
  · intro h1 h2 h3 h4
    have hlen : 0 < (photoIndices ps).length := List.length_pos.mpr h2
    have hcast : (0 : ℝ) < ((photoIndices ps).length : ℝ) := by exact_mod_cast hlen
    have hmul : rnd * ((photoIndices ps).length : ℝ) < ((photoIndices ps).length : ℝ) := by
      nlinarith
    have hidx : Nat.floor (rnd * ((photoIndices ps).length : ℝ)) < (photoIndices ps).length :=
      (Nat.floor_lt (mul_nonneg h3 (le_of_lt hcast))).mpr (by exact_mod_cast hmul)
    refine ⟨(photoIndices ps)[(Nat.floor (rnd * ((photoIndices ps).length : ℝ)))], ?_, ?_, ?_⟩
    · rw [gestureStep_focus_targetPhoto ps st pd ad rnd hp, if_pos h1, if_pos hlen,
        List.getElem?_eq_getElem hidx]
    · exact List.getElem_mem hidx
    · exact mem_photoIndices ps _ (List.getElem_mem hidx)
  · intro h1 h2
    rw [gestureStep_focus_targetPhoto ps st pd ad rnd hp, if_pos h1, h2]
    simp
    exact h1
  · intro t ht
    rw [gestureStep_focus_targetPhoto ps st pd ad rnd hp, if_neg (by rw [ht]; simp)]
    exact ht
  · intro n h1 hn hr
    have hlen : 0 < (photoIndices ps).length := lt_of_le_of_lt (Nat.zero_le n) hn
    have hne : ((photoIndices ps).length : ℝ) ≠ 0 := by
      exact_mod_cast Nat.pos_iff_ne_zero.mp hlen
    have hfloor : Nat.floor (rnd * ((photoIndices ps).length : ℝ)) = n := by
      rw [hr, div_mul_cancel₀ _ hne, Nat.floor_natCast]
    rw [gestureStep_focus_targetPhoto ps st pd ad rnd hp, if_pos h1, if_pos hlen, hfloor,
      List.getElem?_eq_getElem hn]

/-- C5 witness: with one PHOTO particle and no target set, a pinch assigns a
photo target. -/
theorem c5_focus_target_selection_witness :
    ∃ i, (gestureStep [pPhoto] initialState 0.03 0.3 0).targetPhoto = some i ∧
      i ∈ photoIndices [pPhoto] ∧
      ([pPhoto].getD i defaultParticle).type = PType.PHOTO :=
  (c5_focus_target_selection [pPhoto] initialState 0.03 0.3 0 (by norm_num)).2.1
    rfl (by decide) (le_refl 0) (by norm_num)

end
